import Mathlib

/-!
Shallow embedding of `src/documents/data.py` (document ingest data model):
`DocumentOverrides`, `DocumentSource` and `ConsumeDocument` with its
`__post_init__`, `checksum`, `path`, `as_dict` and `from_dict`.

External collaborators (pathlib, `hashlib.md5`, `magic`, `pathvalidate`,
`tempfile`, `datetime`/`dateutil`, the filesystem itself) are modelled as
explicit executable functions over an explicit `World` state that is
threaded through every operation that performs I/O.
-/

/-- Python exception kinds that the embedded code can raise. -/
inductive PyErr where
  | keyError
  | typeError
  | valueError
  | fileNotFound
  | osError
deriving DecidableEq, Repr

/-- Primitive values of a flat serialized record (a Python dict of basic
types: `None`, ints, strings, lists of ints). -/
inductive Value where
  | null
  | int (n : Int)
  | str (s : String)
  | intList (l : List Int)
deriving DecidableEq, Repr

/-- A serialized record: association list from keys to primitive values
(model of a Python dict; keys are unique in every record the code builds). -/
abbrev Record := List (String × Value)

/-- Python `data[k]`: raises `KeyError` when the key is missing. -/
def lookupKey (data : Record) (k : String) : Except PyErr Value :=
  match data.find? (fun kv => kv.1 == k) with
  | some kv => .ok kv.2
  | none => .error .keyError

/-- Python truthiness of a primitive value. -/
def truthy : Value → Bool
  | .null => false
  | .int n => n != 0
  | .str s => s != ""
  | .intList l => !l.isEmpty

/-- Little-endian base-10 digits of a natural number, written with explicit
fuel so that it is structurally recursive and reduces in the kernel. -/
def natDigitsAux : Nat → Nat → List Nat
  | 0, _ => []
  | _ + 1, 0 => []
  | fuel + 1, n + 1 => ((n + 1) % 10) :: natDigitsAux fuel ((n + 1) / 10)

/-- Little-endian base-10 digits (`[]` for 0). -/
def natDigits (n : Nat) : List Nat := natDigitsAux n n

/-- Value of a little-endian digit list. -/
def decodeDigitsRev : List Nat → Nat
  | [] => 0
  | d :: rest => d + 10 * decodeDigitsRev rest

/-- Decimal characters of a natural number, most significant first
(empty for 0). -/
def natChars (n : Nat) : List Char :=
  ((natDigits n).reverse).map (fun x => Char.ofNat (48 + x))

/-- Decimal string of a natural number (empty for 0). -/
def natEnc (n : Nat) : String := String.mk (natChars n)

/-- Executable model of the external `datetime.isoformat`: a standardized
injective textual encoding of a date-time value.  A date-time is modelled
throughout as a natural number (an epoch timestamp); the encoding is a
non-empty string so that, like a real ISO date string, it is truthy. -/
def isoformat (d : Nat) : String := String.mk ('T' :: natChars d)

/-- Decimal digit characters. -/
def isDigitChar (c : Char) : Bool := 48 ≤ c.toNat && c.toNat < 58

/-- Executable model of the external `dateutil.parser.isoparse`, the inverse
of `isoformat`; `none` stands for the `ValueError` Python raises on a
malformed string. -/
def isoparse (s : String) : Option Nat :=
  match s.data with
  | 'T' :: cs =>
      if cs.all isDigitChar then
        some (decodeDigitsRev ((cs.map (fun c => c.toNat - 48)).reverse))
      else none
  | _ => none

/-- The `DocumentOverrides` dataclass: caller-supplied overrides for
document fields; every field defaults to `None` (no override).  The
`created` datetime is modelled as a natural number. -/
structure DocumentOverrides where
  filename : Option String
  title : Option String
  correspondent_id : Option Int
  document_type_id : Option Int
  tag_ids : Option (List Int)
  created : Option Nat
  asn : Option Int
deriving DecidableEq, Repr

/-- Serialization of an optional string field. -/
def optStrVal : Option String → Value
  | some s => .str s
  | none => .null

/-- Serialization of an optional int field. -/
def optIntVal : Option Int → Value
  | some n => .int n
  | none => .null

/-- Serialization of the optional tag-id list. -/
def optTagVal : Option (List Int) → Value
  | some l => .intList l
  | none => .null

/-- Serialization of the optional `created` datetime:
`self.created.isoformat() if self.created else None`. -/
def optCreatedVal : Option Nat → Value
  | some d => .str (isoformat d)
  | none => .null

/-- Translation of `DocumentOverrides.as_dict` (data.py lines 34-43).
The conditional `self.created.isoformat() if self.created else None` is the
`Option` discriminator, because a Python datetime object is always truthy. -/
def DocumentOverrides.as_dict (o : DocumentOverrides) : Record :=
  [("filename", optStrVal o.filename),
   ("title", optStrVal o.title),
   ("correspondent_id", optIntVal o.correspondent_id),
   ("document_type_id", optIntVal o.document_type_id),
   ("archive_serial_num", optIntVal o.asn),
   ("tag_ids", optTagVal o.tag_ids),
   ("created", optCreatedVal o.created)]

/-- Reading a record value into an `Optional[str]` field.  The Python
dataclass stores the raw value unchecked; the typed embedding rejects
values outside the field's declared type. -/
def asOptStr : Value → Except PyErr (Option String)
  | .null => .ok none
  | .str s => .ok (some s)
  | _ => .error .typeError

/-- Reading a record value into an `Optional[int]` field. -/
def asOptInt : Value → Except PyErr (Option Int)
  | .null => .ok none
  | .int n => .ok (some n)
  | _ => .error .typeError

/-- Reading a record value into an `Optional[List[int]]` field. -/
def asOptIntList : Value → Except PyErr (Option (List Int))
  | .null => .ok none
  | .intList l => .ok (some l)
  | _ => .error .typeError

/-- Translation of `isoparse(data["created"]) if data["created"] else None`
(data.py line 53): truthiness test first, then the parse, which raises
`TypeError` on a non-string and `ValueError` on a malformed string. -/
def parseCreated (v : Value) : Except PyErr (Option Nat) :=
  if truthy v then
    match v with
    | .str s =>
        match isoparse s with
        | some d => .ok (some d)
        | none => .error .valueError
    | _ => .error .typeError
  else .ok none

/-- Translation of `DocumentOverrides.from_dict` (data.py lines 45-55):
each `data[k]` raises `KeyError` when `k` is missing; the fields are read
in the left-to-right order the constructor arguments are evaluated. -/
def DocumentOverrides.from_dict (data : Record) : Except PyErr DocumentOverrides :=
  match lookupKey data ("filename") with
  | .error e => .error e
  | .ok vf =>
  match asOptStr vf with
  | .error e => .error e
  | .ok f =>
  match lookupKey data ("title") with
  | .error e => .error e
  | .ok vt =>
  match asOptStr vt with
  | .error e => .error e
  | .ok t =>
  match lookupKey data ("correspondent_id") with
  | .error e => .error e
  | .ok vc =>
  match asOptInt vc with
  | .error e => .error e
  | .ok c =>
  match lookupKey data ("document_type_id") with
  | .error e => .error e
  | .ok vd =>
  match asOptInt vd with
  | .error e => .error e
  | .ok dt =>
  match lookupKey data ("tag_ids") with
  | .error e => .error e
  | .ok vg =>
  match asOptIntList vg with
  | .error e => .error e
  | .ok tg =>
  match lookupKey data ("created") with
  | .error e => .error e
  | .ok vr =>
  match parseCreated vr with
  | .error e => .error e
  | .ok cr =>
  match lookupKey data ("archive_serial_num") with
  | .error e => .error e
  | .ok va =>
  match asOptInt va with
  | .error e => .error e
  | .ok a =>
    .ok { filename := f, title := t, correspondent_id := c, document_type_id := dt,
          tag_ids := tg, created := cr, asn := a }

/-- The `DocumentSource` IntEnum (`enum.auto`: ConsumeFolder = 1,
ApiUpload = 2, MailFetch = 3). -/
inductive DocumentSource where
  | ConsumeFolder
  | ApiUpload
  | MailFetch
deriving DecidableEq, Repr

/-- Python `int(source)` on the IntEnum. -/
def DocumentSource.toInt : DocumentSource → Int
  | .ConsumeFolder => 1
  | .ApiUpload => 2
  | .MailFetch => 3

/-- Python `DocumentSource(v)`: raises `ValueError` unless `v` is one of the
enum's integer values. -/
def toDocumentSource : Value → Except PyErr DocumentSource
  | .int 1 => .ok .ConsumeFolder
  | .int 2 => .ok .ApiUpload
  | .int 3 => .ok .MailFetch
  | _ => .error .valueError

/-- Filesystem contents: association list from paths to byte lists
(a byte is a `Nat`). -/
abbrev FileSys := List (String × List Nat)

/-- Content of the file at a path, if it exists. -/
def fsLookup (fs : FileSys) (p : String) : Option (List Nat) :=
  match fs.find? (fun kv => kv.1 == p) with
  | some kv => some kv.2
  | none => none

/-- Create or overwrite the file at a path. -/
def fsInsert (fs : FileSys) (p : String) (b : List Nat) : FileSys := (p, b) :: fs

/-- Explicit world state threaded through every I/O operation the code
performs: the filesystem, a counter from which `tempfile.mkdtemp` draws its
fresh directory names, a count of completed `read_bytes` calls (the spec's
file-read counter), and an optional remaining write budget (`none` means
writes always succeed; a too-small budget models the OS failing a write
midway, which leaves the prefix that fit on disk — the semantics of a
plain, non-atomic `write_bytes`). -/
structure World where
  fs : FileSys
  tmpCounter : Nat
  readCount : Nat
  writeBudget : Option Nat
deriving DecidableEq, Repr

/-- Model of `Path(p).read_bytes()`: raises `FileNotFoundError` if the file
does not exist, otherwise returns its bytes and counts one read. -/
def readBytes (p : String) (w : World) : Except PyErr (List Nat) × World :=
  match fsLookup w.fs p with
  | some b => (.ok b, { w with readCount := w.readCount + 1 })
  | none => (.error .fileNotFound, w)

/-- Model of `Path(p).write_bytes(b)`: a plain `open` followed by `write`,
with no temporary name, no atomic rename and no cleanup on failure; when
the budget runs out mid-write, the bytes that fit remain on disk and an
`OSError` is raised. -/
def writeBytes (p : String) (b : List Nat) (w : World) : Except PyErr Unit × World :=
  match w.writeBudget with
  | none => (.ok (), { w with fs := fsInsert w.fs p b })
  | some k =>
      if b.length ≤ k then
        (.ok (), { w with fs := fsInsert w.fs p b, writeBudget := some (k - b.length) })
      else
        (.error .osError, { w with fs := fsInsert w.fs p (b.take k), writeBudget := some 0 })

/-- Model of `Path(p).resolve()` (pathlib with the default `strict=False`):
total — it performs no existence check and never raises — idempotent, and
its result is absolute. -/
def resolvePath (p : String) : String :=
  match p.data with
  | '/' :: _ => p
  | _ => "/" ++ p

/-- Whether a path string is absolute. -/
def isAbsolute (p : String) : Bool :=
  match p.data with
  | '/' :: _ => true
  | _ => false

/-- Characters of the last `/`-separated component of a character list. -/
def pathNameAux : List Char → List Char → List Char
  | [], acc => acc.reverse
  | '/' :: rest, _ => pathNameAux rest []
  | c :: rest, acc => pathNameAux rest (c :: acc)

/-- Model of `Path(p).name`: the last `/`-separated component. -/
def pathName (p : String) : String := String.mk (pathNameAux p.data [])

/-- Characters that are unsafe in a filename on the target filesystem. -/
def illegalPathChars : List Char := ['/', '\\', ':', '*', '?', '"', '<', '>', '|']

/-- Model of the external `pathvalidate.sanitize_filename`: strips the
characters unsafe for the target filesystem. -/
def sanitize_filename (s : String) : String :=
  String.mk (s.data.filter (fun c => !(illegalPathChars.contains c)))

/-- Model of the external content-type probe: a deterministic MIME-like
string computed from the file's bytes. -/
def mimeFromBytes (b : List Nat) : String :=
  if b.take 4 = [37, 80, 68, 70] then "application/pdf" else "application/octet-stream"

/-- Model of `magic.from_file(path, mime=True)`: probes the bytes of the
file, raising `FileNotFoundError` if the file does not exist. -/
def magicFromFile (p : String) (w : World) : Except PyErr String :=
  match fsLookup w.fs p with
  | some b => .ok (mimeFromBytes b)
  | none => .error .fileNotFound

/-- Model of `tempfile.mkdtemp(dir=scratch)`: the name of the fresh,
isolated directory allocated when the world's counter is `c`; every
allocation bumps the counter, so no two allocations share a directory. -/
def mkdtempName (scratch : String) (c : Nat) : String := scratch ++ "/tmp" ++ natEnc c

/-- Model of the external `hashlib.md5(b).hexdigest()`: a deterministic
digest string of the content. -/
def md5hex (b : List Nat) : String :=
  String.mk ('m' :: natChars (b.foldl (fun a x => (a * 256 + x % 256) % (2 ^ 128)) 1))

/-- The `ConsumeDocument` dataclass (data.py lines 68-151).  The
`checksumCache` field makes the `functools.cached_property` cache of
`checksum` explicit; `path` depends only on fields that never change after
construction, so its `cached_property` is modelled as a pure function. -/
structure ConsumeDocument where
  source : DocumentSource
  original_file : String
  working_file : Option String
  mime_type : Option String
  checksumCache : Option String
deriving DecidableEq, Repr

/-- Translation of `ConsumeDocument.path` (lines 115-123): it branches on
the source, not on `working_file` being set, and returns `working_file`
itself (possibly `None`) for a ConsumeFolder document. -/
def ConsumeDocument.path (d : ConsumeDocument) : Option String :=
  if d.source = DocumentSource.ConsumeFolder then d.working_file
  else some d.original_file

/-- Translation of `ConsumeDocument.__post_init__` (lines 80-106), run on
every construction: resolve the original path, probe the MIME type when it
was not supplied, and for a ConsumeFolder document with no supplied working
file copy the original into a fresh scratch directory under a sanitized
filename.  An error return models the Python exception propagating out of
the constructor: no object is produced. -/
def postInit (scratch : String) (d0 : ConsumeDocument) (w : World) :
    Except PyErr ConsumeDocument × World :=
  let d1 : ConsumeDocument := { d0 with original_file := resolvePath d0.original_file }
  let probe : Except PyErr String :=
    match d1.mime_type with
    | some m => .ok m
    | none => magicFromFile d1.original_file w
  match probe with
  | .error e => (.error e, w)
  | .ok m =>
    let d2 : ConsumeDocument := { d1 with mime_type := some m }
    if d2.source = DocumentSource.ConsumeFolder ∧ d2.working_file = none then
      let wf := resolvePath (mkdtempName scratch w.tmpCounter ++ "/" ++
                  sanitize_filename (pathName d2.original_file))
      let w1 : World := { w with tmpCounter := w.tmpCounter + 1 }
      let d3 : ConsumeDocument := { d2 with working_file := some wf }
      match readBytes d3.original_file w1 with
      | (.error e, w2) => (.error e, w2)
      | (.ok b, w2) =>
          match writeBytes wf b w2 with
          | (.error e, w3) => (.error e, w3)
          | (.ok _, w3) => (.ok d3, w3)
    else (.ok d2, w)

/-- Construction of `ConsumeDocument(source, original_file, working_file,
mime_type)`: the dataclass init immediately followed by `__post_init__`. -/
def mkConsumeDocument (scratch : String) (source : DocumentSource)
    (original_file : String) (working_file : Option String)
    (mime_type : Option String) (w : World) :
    Except PyErr ConsumeDocument × World :=
  postInit scratch
    { source := source, original_file := original_file,
      working_file := working_file, mime_type := mime_type,
      checksumCache := none } w

/-- Translation of `ConsumeDocument.checksum` (lines 108-113): a
`cached_property` computing `md5(self.path.read_bytes()).hexdigest()`.
The possibly-updated document (the cache write) is returned alongside the
result; when the body raises, `cached_property` caches nothing.  A `None`
path raises (`AttributeError`, modelled as `typeError`). -/
def ConsumeDocument.checksum (d : ConsumeDocument) (w : World) :
    (Except PyErr String) × ConsumeDocument × World :=
  match d.checksumCache with
  | some s => (.ok s, d, w)
  | none =>
      match d.path with
      | none => (.error .typeError, d, w)
      | some p =>
          match readBytes p w with
          | (.error e, w1) => (.error e, d, w1)
          | (.ok b, w1) =>
              let s := md5hex b
              (.ok s, { d with checksumCache := some s }, w1)

/-- Translation of `ConsumeDocument.as_dict` (lines 125-135).  The
conditional `str(self.working_file) if self.working_file else None` is the
`Option` discriminator, because `working_file` is an `Optional[Path]` and a
Path object is always truthy. -/
def ConsumeDocument.as_dict (d : ConsumeDocument) : Record :=
  [("source", Value.int d.source.toInt),
   ("original_file", Value.str d.original_file),
   ("working_file", optStrVal d.working_file),
   ("mime_type", optStrVal d.mime_type)]

/-- Python `Path(v)`: raises `TypeError` unless `v` is a string (or path). -/
def asPathStr : Value → Except PyErr String
  | .str s => .ok s
  | _ => .error .typeError

/-- Translation of `Path(data["working_file"]) if data["working_file"] else
None` (data.py line 146): truthiness test on the raw value, then `Path(v)`. -/
def parseWorkValue (vw : Value) : Except PyErr (Option String) :=
  if truthy vw then
    match asPathStr vw with
    | .error e => .error e
    | .ok s => .ok (some s)
  else .ok none

/-- Evaluation of the constructor arguments in `ConsumeDocument.from_dict`
(lines 142-150), in Python's left-to-right order; each `data[k]` raises
`KeyError` when the key is missing. -/
def parseConsumeRecord (data : Record) :
    Except PyErr (DocumentSource × String × Option String × Option String) :=
  match lookupKey data ("source") with
  | .error e => .error e
  | .ok vs =>
  match toDocumentSource vs with
  | .error e => .error e
  | .ok src =>
  match lookupKey data ("original_file") with
  | .error e => .error e
  | .ok vo =>
  match asPathStr vo with
  | .error e => .error e
  | .ok orig =>
  match lookupKey data ("working_file") with
  | .error e => .error e
  | .ok vw =>
  match parseWorkValue vw with
  | .error e => .error e
  | .ok work =>
  match lookupKey data ("mime_type") with
  | .error e => .error e
  | .ok vm =>
  match asOptStr vm with
  | .error e => .error e
  | .ok mime => .ok (src, orig, work, mime)

/-- Translation of `ConsumeDocument.from_dict` (lines 137-151): evaluate
the four constructor arguments from the record, then run the dataclass
constructor, which triggers `__post_init__` again. -/
def ConsumeDocument.from_dict (scratch : String) (data : Record) (w : World) :
    Except PyErr ConsumeDocument × World :=
  match parseConsumeRecord data with
  | .error e => (.error e, w)
  | .ok (src, orig, work, mime) =>
      mkConsumeDocument scratch src orig work mime w

/-! Helper lemmas about the decimal encoding and the serialization
primitives. -/

theorem decodeDigitsRev_natDigitsAux :
    ∀ fuel n, n ≤ fuel → decodeDigitsRev (natDigitsAux fuel n) = n := by
  intro fuel
  induction fuel with
  | zero =>
      intro n h
      interval_cases n
      rfl
  | succ f ih =>
      intro n h
      match n with
      | 0 => rfl
      | m + 1 =>
          have hlt : (m + 1) / 10 < m + 1 := Nat.div_lt_self (Nat.succ_pos m) (by norm_num)
          have hdiv : (m + 1) / 10 ≤ f := by omega
          simp only [natDigitsAux, decodeDigitsRev, ih _ hdiv]
          omega

theorem decodeDigitsRev_natDigits (n : Nat) : decodeDigitsRev (natDigits n) = n :=
  decodeDigitsRev_natDigitsAux n n (Nat.le_refl n)

theorem natDigitsAux_lt : ∀ fuel n x, x ∈ natDigitsAux fuel n → x < 10 := by
  intro fuel
  induction fuel with
  | zero => intro n x hx; simp [natDigitsAux] at hx
  | succ f ih =>
      intro n x hx
      match n with
      | 0 => simp [natDigitsAux] at hx
      | m + 1 =>
          simp only [natDigitsAux, List.mem_cons] at hx
          rcases hx with h | h
          · omega
          · exact ih _ _ h

theorem natDigits_lt (n x : Nat) (hx : x ∈ natDigits n) : x < 10 :=
  natDigitsAux_lt n n x hx

theorem toNat_digitChar (x : Nat) (h : x < 10) : (Char.ofNat (48 + x)).toNat = 48 + x := by
  interval_cases x <;> rfl

theorem isDigitChar_digit (x : Nat) (h : x < 10) : isDigitChar (Char.ofNat (48 + x)) = true := by
  interval_cases x <;> rfl

theorem isoparse_isoformat (d : Nat) : isoparse (isoformat d) = some d := by
  show isoparse (String.mk ('T' :: natChars d)) = some d
  unfold isoparse
  have hall : (natChars d).all isDigitChar = true := by
    simp only [natChars, List.all_eq_true]
    intro c hc
    simp only [List.mem_map, List.mem_reverse] at hc
    obtain ⟨x, hx, rfl⟩ := hc
    exact isDigitChar_digit x (natDigits_lt d x hx)
  simp only [hall, if_true]
  have hmap : (natChars d).map (fun c => c.toNat - 48) = (natDigits d).reverse := by
    simp only [natChars, List.map_map]
    have : ((natDigits d).reverse).map ((fun c => c.toNat - 48) ∘ fun x => Char.ofNat (48 + x)) =
        ((natDigits d).reverse).map id := by
      apply List.map_congr_left
      intro x hx
      simp only [Function.comp, id]
      rw [toNat_digitChar x (natDigits_lt d x (List.mem_reverse.mp hx))]
      omega
    simpa using this
  rw [hmap, List.reverse_reverse, decodeDigitsRev_natDigits]

theorem isoformat_ne_empty (d : Nat) : isoformat d ≠ "" := by
  intro h
  have h2 : ('T' :: natChars d) = "".data := congrArg String.data h
  simp at h2

theorem asOptStr_optStrVal (x : Option String) : asOptStr (optStrVal x) = .ok x := by
  cases x <;> rfl

theorem asOptInt_optIntVal (x : Option Int) : asOptInt (optIntVal x) = .ok x := by
  cases x <;> rfl

theorem asOptIntList_optTagVal (x : Option (List Int)) : asOptIntList (optTagVal x) = .ok x := by
  cases x <;> rfl

theorem parseCreated_optCreatedVal (x : Option Nat) : parseCreated (optCreatedVal x) = .ok x := by
  cases x with
  | none => rfl
  | some d =>
      have ht : truthy (Value.str (isoformat d)) = true := by
        simp only [truthy, bne_iff_ne, ne_eq]
        exact isoformat_ne_empty d
      simp [parseCreated, optCreatedVal, ht, isoparse_isoformat]

/-- The seven keys of a serialized `DocumentOverrides` record. -/
def overrideKeys : List String :=
  ["filename", "title", "correspondent_id", "document_type_id",
   "tag_ids", "created", "archive_serial_num"]

/-- A successful `DocumentOverrides.from_dict` needs every override key to
be present in the record. -/
theorem from_dict_ok_keys (data : Record) (o : DocumentOverrides)
    (h : DocumentOverrides.from_dict data = .ok o) :
    ∀ k ∈ overrideKeys, ∃ v, lookupKey data k = .ok v := by
  unfold DocumentOverrides.from_dict at h
  repeat' split at h
  all_goals simp_all [overrideKeys]

/-- C5: for every FieldOverrides value `o`, `fromRecord (toRecord o)` equals
`o` field-for-field (filename, title, correspondentId, documentTypeId,
tagIds, created, archiveSerialNumber), and the all-unset FieldOverrides
serializes to a record in which every field is null (and hence, by the
first part, round-trips back to the all-unset value). -/
theorem overrides_record_roundtrip :
    (∀ o : DocumentOverrides, DocumentOverrides.from_dict o.as_dict = .ok o) ∧
    DocumentOverrides.as_dict ⟨none, none, none, none, none, none, none⟩ =
      [("filename", Value.null), ("title", Value.null), ("correspondent_id", Value.null),
       ("document_type_id", Value.null), ("archive_serial_num", Value.null),
       ("tag_ids", Value.null), ("created", Value.null)] := by
  refine ⟨fun o => ?_, rfl⟩
  simp [DocumentOverrides.from_dict, DocumentOverrides.as_dict, lookupKey, List.find?,
        asOptStr_optStrVal, asOptInt_optIntVal, asOptIntList_optTagVal, parseCreated_optCreatedVal]

/-- C6 counterexample: a record from which the override key `filename` is
entirely missing (all other keys present as null) does not deserialize with
the field unset — `from_dict` raises `KeyError`, because each field is read
with `data[k]`, not `data.get(k)`. -/
theorem overrides_missing_key_raises :
    DocumentOverrides.from_dict
      [("title", Value.null), ("correspondent_id", Value.null),
       ("document_type_id", Value.null), ("tag_ids", Value.null),
       ("created", Value.null), ("archive_serial_num", Value.null)] = .error .keyError := by
  rfl

/-- C6 (amended): `DocumentOverrides.from_dict` requires every override key
to be present in the record — a missing key raises `KeyError` rather than
deserializing to unset — while a key present with value null does
deserialize to unset (the all-null record yields the all-unset value). -/
theorem overrides_from_dict_requires_keys :
    (∀ data k, k ∈ overrideKeys → lookupKey data k = .error .keyError →
        ∀ o, DocumentOverrides.from_dict data ≠ .ok o) ∧
    (∀ data : Record, (∀ k, k ∈ overrideKeys → lookupKey data k = .ok Value.null) →
        DocumentOverrides.from_dict data = .ok ⟨none, none, none, none, none, none, none⟩) := by
  constructor
  · intro data k hk hmiss o hok
    obtain ⟨v, hv⟩ := from_dict_ok_keys data o hok k hk
    rw [hmiss] at hv
    cases hv
  · intro data hall
    have h1 := hall ("filename") (by simp [overrideKeys])
    have h2 := hall ("title") (by simp [overrideKeys])
    have h3 := hall ("correspondent_id") (by simp [overrideKeys])
    have h4 := hall ("document_type_id") (by simp [overrideKeys])
    have h5 := hall ("tag_ids") (by simp [overrideKeys])
    have h6 := hall ("created") (by simp [overrideKeys])
    have h7 := hall ("archive_serial_num") (by simp [overrideKeys])
    simp [DocumentOverrides.from_dict, h1, h2, h3, h4, h5, h6, h7, asOptStr, asOptInt,
          asOptIntList, parseCreated, truthy]

/-- Witness for the amended C6 theorem at concrete records: a record
missing `filename` is rejected, and the all-null record deserializes to the
all-unset overrides. -/
theorem overrides_from_dict_requires_keys_witness :
    (DocumentOverrides.from_dict
        [("title", Value.null), ("correspondent_id", Value.null),
         ("document_type_id", Value.null), ("tag_ids", Value.null),
         ("created", Value.null), ("archive_serial_num", Value.null)] ≠
      .ok ⟨none, none, none, none, none, none, none⟩) ∧
    DocumentOverrides.from_dict
        [("filename", Value.null), ("title", Value.null), ("correspondent_id", Value.null),
         ("document_type_id", Value.null), ("tag_ids", Value.null), ("created", Value.null),
         ("archive_serial_num", Value.null)] =
      .ok ⟨none, none, none, none, none, none, none⟩ :=
  ⟨overrides_from_dict_requires_keys.1 _ ("filename") (by decide) (by rfl) _,
   overrides_from_dict_requires_keys.2 _ (by intro k hk; fin_cases hk <;> rfl)⟩

theorem data_slash_append (p : String) : ("/" ++ p).data = '/' :: p.data := by
  cases p with
  | mk l => rfl

theorem data_resolvePath (p : String) : ∃ rest, (resolvePath p).data = '/' :: rest := by
  unfold resolvePath
  split
  next c rest heq => exact ⟨rest, heq⟩
  next => rw [data_slash_append]; exact ⟨p.data, rfl⟩

theorem resolvePath_of_data_slash (q : String) (rest : List Char) (h : q.data = '/' :: rest) :
    resolvePath q = q := by
  unfold resolvePath
  rw [h]
  rfl

theorem resolvePath_idem (p : String) : resolvePath (resolvePath p) = resolvePath p := by
  obtain ⟨rest, h⟩ := data_resolvePath p
  exact resolvePath_of_data_slash _ rest h

theorem fsLookup_fsInsert_self (fs : FileSys) (p : String) (b : List Nat) :
    fsLookup (fsInsert fs p b) p = some b := by
  simp [fsLookup, fsInsert, List.find?]

def workingName (scratch : String) (c : Nat) (orig : String) : String :=
  resolvePath (mkdtempName scratch c ++ "/" ++ sanitize_filename (pathName (resolvePath orig)))

theorem readBytes_ok_inv (p : String) (w w' : World) (b : List Nat)
    (h : readBytes p w = (.ok b, w')) :
    fsLookup w.fs p = some b ∧ w' = { w with readCount := w.readCount + 1 } := by
  unfold readBytes at h
  split at h
  all_goals simp_all

theorem writeBytes_ok_inv (p : String) (b : List Nat) (w w' : World) (u : Unit)
    (h : writeBytes p b w = (.ok u, w')) :
    w'.fs = fsInsert w.fs p b ∧ w'.tmpCounter = w.tmpCounter ∧ w'.readCount = w.readCount := by
  unfold writeBytes at h
  repeat' split at h
  all_goals cases h
  all_goals simp

theorem probe_ok_inv (mt : Option String) (p : String) (w : World) (m : String)
    (h : (match mt with
          | some m0 => Except.ok m0
          | none => magicFromFile p w) = Except.ok (ε := PyErr) m) :
    mt = some m ∨ (mt = none ∧ magicFromFile p w = .ok m) := by
  cases mt with
  | some x =>
      simp only [Except.ok.injEq] at h
      exact Or.inl (by rw [h])
  | none => exact Or.inr ⟨rfl, h⟩

theorem postInit_ok_inv (scratch : String) (d0 : ConsumeDocument) (w : World)
    (d : ConsumeDocument) (w' : World)
    (h : postInit scratch d0 w = (.ok d, w')) :
    d.source = d0.source ∧
    d.checksumCache = d0.checksumCache ∧
    d.original_file = resolvePath d0.original_file ∧
    (∃ m, d.mime_type = some m ∧
       (d0.mime_type = some m ∨
         (d0.mime_type = none ∧ magicFromFile (resolvePath d0.original_file) w = .ok m))) ∧
    ((d0.source = DocumentSource.ConsumeFolder ∧ d0.working_file = none) →
       ∃ b, fsLookup w.fs (resolvePath d0.original_file) = some b ∧
         d.working_file = some (workingName scratch w.tmpCounter d0.original_file) ∧
         w'.tmpCounter = w.tmpCounter + 1 ∧
         w'.readCount = w.readCount + 1 ∧
         w'.fs = fsInsert w.fs (workingName scratch w.tmpCounter d0.original_file) b) ∧
    (¬(d0.source = DocumentSource.ConsumeFolder ∧ d0.working_file = none) →
       d.working_file = d0.working_file ∧ w' = w) := by
  simp only [postInit] at h
  split at h
  · simp at h
  next m heqProbe =>
    have hmime := probe_ok_inv d0.mime_type (resolvePath d0.original_file) w m heqProbe
    split at h
    case isTrue hcond =>
      split at h
      next e w2 heqr => simp at h
      next b w2 heqr =>
        split at h
        next e w3 heqw => simp at h
        next u w3 heqw =>
          simp only [Prod.mk.injEq, Except.ok.injEq] at h
          obtain ⟨rfl, rfl⟩ := h
          obtain ⟨hr1, rfl⟩ := readBytes_ok_inv _ _ _ _ heqr
          obtain ⟨hwf, hwt, hwr⟩ := writeBytes_ok_inv _ _ _ _ _ heqw
          refine ⟨rfl, rfl, rfl, ⟨m, rfl, hmime⟩,
            fun _ => ⟨b, hr1, by simp [workingName], by simp [hwt], by simp [hwr],
              by simp [workingName, hwf]⟩,
            fun hc => absurd hcond hc⟩
    case isFalse hcond =>
      simp only [Prod.mk.injEq, Except.ok.injEq] at h
      obtain ⟨rfl, rfl⟩ := h
      exact ⟨rfl, rfl, rfl, ⟨m, rfl, hmime⟩,
        fun hc => absurd hc hcond, fun _ => ⟨rfl, rfl⟩⟩

theorem resolvePath_ne_empty (p : String) : resolvePath p ≠ "" := by
  obtain ⟨rest, h⟩ := data_resolvePath p
  intro hc
  rw [hc] at h
  simp at h

theorem toDocumentSource_toInt (s : DocumentSource) :
    toDocumentSource (Value.int s.toInt) = .ok s := by
  cases s <;> rfl

theorem parseWorkValue_ok_inv (vw : Value) (work : Option String)
    (h : parseWorkValue vw = .ok work) :
    (truthy vw = true ∧ ∃ s, asPathStr vw = .ok s ∧ work = some s) ∨
    (truthy vw = false ∧ work = none) := by
  unfold parseWorkValue at h
  repeat' split at h
  all_goals simp_all

/-- A successful `parseConsumeRecord` pins down every record field. -/
theorem parseConsumeRecord_ok_inv (data : Record) (src : DocumentSource) (orig : String)
    (work mime : Option String)
    (h : parseConsumeRecord data = .ok (src, orig, work, mime)) :
    (∃ vs, lookupKey data ("source") = .ok vs ∧ toDocumentSource vs = .ok src) ∧
    (∃ vo, lookupKey data ("original_file") = .ok vo ∧ asPathStr vo = .ok orig) ∧
    (∃ vw, lookupKey data ("working_file") = .ok vw ∧ parseWorkValue vw = .ok work) ∧
    (∃ vm, lookupKey data ("mime_type") = .ok vm ∧ asOptStr vm = .ok mime) := by
  simp only [parseConsumeRecord] at h
  repeat' split at h
  all_goals simp_all

theorem workingName_resolvePath (scratch : String) (c : Nat) (o : String) :
    workingName scratch c (resolvePath o) = workingName scratch c o := by
  simp [workingName, resolvePath_idem]

/-- C2: after a successful construction, a working copy (a `working_file`
differing from the caller-supplied value) exists iff the source is the
watched folder and no working file was supplied; when created it is a
byte-exact copy of the original file's content, placed in the freshly
allocated scratch directory (the `mkdtemp` name drawn from the current
counter, which is bumped) under the sanitized original filename, and
`path` then returns the working copy; for ApiUpload and MailFetch sources
no working copy is ever created (`working_file` stays as supplied and the
world, filesystem included, is untouched). -/
theorem working_copy_invariant (scratch : String) (src : DocumentSource)
    (orig : String) (wf mime : Option String) (w : World)
    (d : ConsumeDocument) (w' : World)
    (h : mkConsumeDocument scratch src orig wf mime w = (.ok d, w')) :
    (d.working_file ≠ wf ↔ (src = DocumentSource.ConsumeFolder ∧ wf = none)) ∧
    ((src = DocumentSource.ConsumeFolder ∧ wf = none) →
       ∃ b, fsLookup w.fs d.original_file = some b ∧
         d.working_file = some (workingName scratch w.tmpCounter orig) ∧
         fsLookup w'.fs (workingName scratch w.tmpCounter orig) = some b ∧
         d.path = d.working_file ∧
         w'.tmpCounter = w.tmpCounter + 1) ∧
    ((src = DocumentSource.ApiUpload ∨ src = DocumentSource.MailFetch) →
       d.working_file = wf ∧ w' = w) := by
  obtain ⟨hsrc, hcache, horig, hmime, hcopy, hnocopy⟩ :=
    postInit_ok_inv scratch _ w d w' h
  dsimp only at hsrc hcache horig hmime hcopy hnocopy
  refine ⟨⟨fun hne => ?_, fun hc => ?_⟩, fun hc => ?_, fun hc => ?_⟩
  · by_contra hnc
    exact hne (hnocopy hnc).1
  · obtain ⟨b, hb, hwfeq, _⟩ := hcopy hc
    rw [hwfeq, hc.2]
    simp
  · obtain ⟨b, hb, hwfeq, hcnt, hrc, hfs⟩ := hcopy hc
    refine ⟨b, by rw [horig]; exact hb, hwfeq, ?_, ?_, hcnt⟩
    · rw [hfs]
      exact fsLookup_fsInsert_self _ _ _
    · simp [ConsumeDocument.path, hsrc, hc.1, hwfeq]
  · have hns : ¬(src = DocumentSource.ConsumeFolder ∧ wf = none) := by
      rcases hc with h1 | h1 <;> (rw [h1]; simp)
    exact ⟨(hnocopy hns).1, (hnocopy hns).2⟩

/-- Witness for C2: a concrete ConsumeFolder construction, and the working
copy it creates. -/
theorem working_copy_invariant_witness :
    mkConsumeDocument ("/s") DocumentSource.ConsumeFolder ("/a.txt") none none
        ⟨[("/a.txt", [1, 2, 3])], 0, 0, none⟩ =
      (.ok ⟨DocumentSource.ConsumeFolder, "/a.txt", some "/s/tmp/a.txt",
            some "application/octet-stream", none⟩,
        ⟨[("/s/tmp/a.txt", [1, 2, 3]), ("/a.txt", [1, 2, 3])], 1, 1, none⟩) ∧
    (ConsumeDocument.mk DocumentSource.ConsumeFolder "/a.txt" (some "/s/tmp/a.txt")
        (some "application/octet-stream") none).working_file ≠ none := by
  constructor
  · rfl
  · exact (working_copy_invariant ("/s") DocumentSource.ConsumeFolder ("/a.txt") none none
      ⟨[("/a.txt", [1, 2, 3])], 0, 0, none⟩
      ⟨DocumentSource.ConsumeFolder, "/a.txt", some "/s/tmp/a.txt",
        some "application/octet-stream", none⟩
      ⟨[("/s/tmp/a.txt", [1, 2, 3]), ("/a.txt", [1, 2, 3])], 1, 1, none⟩ rfl).1.mpr ⟨rfl, rfl⟩

/-- C3 counterexample: a constructed document (ApiUpload source with a
caller-supplied working file) whose `working_file` is set, yet `path`
returns the original file, not the working file — `path` branches on the
source, never on `working_file` being set. -/
theorem path_ignores_workingFile_counterexample :
    mkConsumeDocument ("/s") DocumentSource.ApiUpload ("/a") (some "/w") (some "m")
        ⟨[], 0, 0, none⟩ =
      (.ok ⟨DocumentSource.ApiUpload, "/a", some "/w", some "m", none⟩, ⟨[], 0, 0, none⟩) ∧
    (ConsumeDocument.mk DocumentSource.ApiUpload "/a" (some "/w") (some "m") none).path =
      some "/a" ∧
    some "/a" ≠ some ("/w" : String) :=
  ⟨rfl, rfl, by decide⟩

/-- C3 (amended): `path` is a pure function of the constructed document
(hence side-effect free and idempotent); for every successfully constructed
document it returns the working file exactly when the source is the watched
folder (in which case a working file is always present), and the original
file for every other source — even when a working file is set. -/
theorem path_branches_on_source (scratch : String) (src : DocumentSource)
    (orig : String) (wf mime : Option String) (w : World) (d : ConsumeDocument) (w' : World)
    (h : mkConsumeDocument scratch src orig wf mime w = (.ok d, w')) :
    (src = DocumentSource.ConsumeFolder → ∃ p, d.working_file = some p ∧ d.path = some p) ∧
    (src ≠ DocumentSource.ConsumeFolder → d.path = some d.original_file) := by
  obtain ⟨hsrc, hcache, horig, hmime, hcopy, hnocopy⟩ :=
    postInit_ok_inv scratch _ w d w' h
  dsimp only at hsrc hcache horig hmime hcopy hnocopy
  constructor
  · intro hc
    by_cases hwn : wf = none
    · obtain ⟨b, _, hwfeq, _⟩ := hcopy ⟨hc, hwn⟩
      exact ⟨_, hwfeq, by simp [ConsumeDocument.path, hsrc, hc, hwfeq]⟩
    · obtain ⟨p, hp⟩ := Option.ne_none_iff_exists'.mp hwn
      have hwfeq : d.working_file = some p := by
        rw [(hnocopy (fun hand => hwn hand.2)).1, hp]
      exact ⟨p, hwfeq, by simp [ConsumeDocument.path, hsrc, hc, hwfeq]⟩
  · intro hc
    simp [ConsumeDocument.path, hsrc, hc]

/-- Witness for the amended C3 theorem: a concrete ApiUpload document with a
working file set still exposes the original file as its public path. -/
theorem path_branches_on_source_witness :
    (ConsumeDocument.mk DocumentSource.ApiUpload "/a" (some "/w") (some "m") none).path =
      some (ConsumeDocument.mk DocumentSource.ApiUpload "/a" (some "/w")
        (some "m") none).original_file :=
  (path_branches_on_source ("/s") DocumentSource.ApiUpload ("/a") (some "/w") (some "m")
    ⟨[], 0, 0, none⟩ ⟨DocumentSource.ApiUpload, "/a", some "/w", some "m", none⟩
    ⟨[], 0, 0, none⟩ rfl).2 (by decide)

/-- C10: deserializing a record whose source decodes to the watched folder
and whose working-file field is null is not a pure rehydration — the
constructor's working-copy branch runs: the resulting document's
`working_file` is non-null (hence differs from the record's null value), a
fresh scratch directory is allocated (the counter is bumped), the original
file is read once more, and its content is copied to the new working
path. -/
theorem from_dict_consume_folder_reingests (scratch : String) (data : Record) (w : World)
    (d : ConsumeDocument) (w' : World)
    (hsrc : lookupKey data ("source") = .ok (Value.int 1))
    (hwf : lookupKey data ("working_file") = .ok Value.null)
    (h : ConsumeDocument.from_dict scratch data w = (.ok d, w')) :
    d.working_file ≠ none ∧
    d.working_file = some (workingName scratch w.tmpCounter d.original_file) ∧
    w'.tmpCounter = w.tmpCounter + 1 ∧
    w'.readCount = w.readCount + 1 ∧
    fsLookup w'.fs (workingName scratch w.tmpCounter d.original_file) =
      fsLookup w.fs d.original_file := by
  unfold ConsumeDocument.from_dict at h
  split at h
  · simp at h
  next src orig work mime heqp =>
    obtain ⟨⟨vs, hvs1, hvs2⟩, _, ⟨vw, hvw1, hvw2⟩, _⟩ := parseConsumeRecord_ok_inv _ _ _ _ _ heqp
    rw [hsrc] at hvs1
    rw [hwf] at hvw1
    obtain rfl : vs = Value.int 1 := by injection hvs1 with h2; exact h2.symm
    obtain rfl : vw = Value.null := by injection hvw1 with h2; exact h2.symm
    obtain rfl : src = DocumentSource.ConsumeFolder := by
      have : toDocumentSource (Value.int 1) = .ok DocumentSource.ConsumeFolder := rfl
      rw [this] at hvs2
      injection hvs2 with h2
      exact h2.symm
    obtain rfl : work = none := by
      have : parseWorkValue Value.null = .ok none := rfl
      rw [this] at hvw2
      injection hvw2 with h2
      exact h2.symm
    obtain ⟨hs, hc, ho, hm, hcopy, hnocopy⟩ := postInit_ok_inv scratch _ w d w' h
    dsimp only at hs hc ho hm hcopy hnocopy
    obtain ⟨b, hb, hwfeq, hcnt, hrc, hfs⟩ := hcopy ⟨rfl, rfl⟩
    rw [ho, workingName_resolvePath]
    refine ⟨by rw [hwfeq]; simp, hwfeq, hcnt, hrc, ?_⟩
    rw [hfs, hb, fsLookup_fsInsert_self]

/-- Witness for C10: a concrete watched-folder record with a null working
file rehydrates into a document with a freshly created working copy. -/
theorem from_dict_consume_folder_reingests_witness :
    (ConsumeDocument.mk DocumentSource.ConsumeFolder "/a.txt" (some "/s/tmp/a.txt")
        (some "m") none).working_file ≠ none :=
  (from_dict_consume_folder_reingests ("/s")
    [("source", Value.int 1), ("original_file", Value.str "/a.txt"),
     ("working_file", Value.null), ("mime_type", Value.str "m")]
    ⟨[("/a.txt", [7])], 0, 0, none⟩
    ⟨DocumentSource.ConsumeFolder, "/a.txt", some "/s/tmp/a.txt", some "m", none⟩
    ⟨[("/s/tmp/a.txt", [7]), ("/a.txt", [7])], 1, 1, none⟩ rfl rfl rfl).1

/-- C1: serializing a successfully constructed document and deserializing
the record is a pure rehydration: for any world `w2` it returns a document
equal to the original (same source, originalFile, workingFile and
contentType — indeed equal as a whole, both having an empty checksum cache)
and leaves `w2` completely untouched: no content-type probe runs and no
working copy is created.  The hypothesis on `wf` records that Python path
objects render to non-empty strings. -/
theorem consume_record_roundtrip (s1 s2 : String) (src : DocumentSource)
    (orig : String) (wf mime : Option String) (w w1 w2 : World) (d : ConsumeDocument)
    (hwfstr0 : ∀ p, wf = some p → p ≠ "")
    (h : mkConsumeDocument s1 src orig wf mime w = (.ok d, w1)) :
    ConsumeDocument.from_dict s2 d.as_dict w2 = (.ok d, w2) := by
  obtain ⟨hsrc, hcache, horig, ⟨m, hmime, _⟩, hcopy, hnocopy⟩ :=
    postInit_ok_inv s1 _ w d w1 h
  dsimp only at hsrc hcache horig hmime hcopy hnocopy
  have hres : resolvePath d.original_file = d.original_file := by
    rw [horig]; exact resolvePath_idem orig
  have hwfne : d.source = DocumentSource.ConsumeFolder → d.working_file ≠ none := by
    intro hdc
    rw [hsrc] at hdc
    by_cases hwn : wf = none
    · obtain ⟨b, _, hwfeq, _⟩ := hcopy ⟨hdc, hwn⟩
      rw [hwfeq]; simp
    · rw [(hnocopy (fun hand => hwn hand.2)).1]; exact hwn
  have hwfstr : ∀ p, d.working_file = some p → p ≠ "" := by
    intro p hp
    by_cases hcond : src = DocumentSource.ConsumeFolder ∧ wf = none
    · obtain ⟨b, _, hwfeq, _⟩ := hcopy hcond
      rw [hp] at hwfeq
      injection hwfeq with h2
      rw [h2]
      show resolvePath _ ≠ ""
      exact resolvePath_ne_empty _
    · have h2 := (hnocopy hcond).1
      rw [hp] at h2
      exact hwfstr0 p h2.symm
  have hparse : parseConsumeRecord d.as_dict =
      .ok (d.source, d.original_file, d.working_file, d.mime_type) := by
    have hwork : parseWorkValue (optStrVal d.working_file) = .ok d.working_file := by
      rcases hdw : d.working_file with _ | p
      · rfl
      · have hpne : p ≠ "" := hwfstr p hdw
        simp [parseWorkValue, optStrVal, truthy, asPathStr, hpne]
    simp [parseConsumeRecord, ConsumeDocument.as_dict, lookupKey, List.find?,
          toDocumentSource_toInt, asPathStr, asOptStr_optStrVal, hwork]
  unfold ConsumeDocument.from_dict
  rw [hparse]
  show postInit s2 ⟨d.source, d.original_file, d.working_file, d.mime_type, none⟩ w2 =
    (.ok d, w2)
  simp only [postInit, hres, hmime]
  have hcond2 : ¬(d.source = DocumentSource.ConsumeFolder ∧ d.working_file = none) := by
    rintro ⟨h1, h2⟩
    exact hwfne h1 h2
  rw [if_neg hcond2]
  obtain ⟨ds, dof, dwf, dmt, dcc⟩ := d
  dsimp only at hmime hcache ⊢
  rw [hmime, hcache]

/-- Witness for C1: round-tripping the document built by a concrete
watched-folder construction, into a fresh world that comes back
unchanged. -/
theorem consume_record_roundtrip_witness :
    ConsumeDocument.from_dict ("/q")
      (ConsumeDocument.as_dict ⟨DocumentSource.ConsumeFolder, "/a.txt",
        some "/s/tmp/a.txt", some "application/octet-stream", none⟩)
      ⟨[], 9, 9, none⟩ =
    (.ok ⟨DocumentSource.ConsumeFolder, "/a.txt", some "/s/tmp/a.txt",
          some "application/octet-stream", none⟩, ⟨[], 9, 9, none⟩) :=
  consume_record_roundtrip ("/s") ("/q") DocumentSource.ConsumeFolder ("/a.txt") none none
    ⟨[("/a.txt", [1, 2, 3])], 0, 0, none⟩
    ⟨[("/s/tmp/a.txt", [1, 2, 3]), ("/a.txt", [1, 2, 3])], 1, 1, none⟩
    ⟨[], 9, 9, none⟩
    ⟨DocumentSource.ConsumeFolder, "/a.txt", some "/s/tmp/a.txt",
      some "application/octet-stream", none⟩
    (by simp) rfl

theorem isAbsolute_resolvePath (p : String) : isAbsolute (resolvePath p) = true := by
  obtain ⟨rest, h⟩ := data_resolvePath p
  unfold isAbsolute
  rw [h]
  rfl

/-- C4: the first `checksum` call on a document with an empty cache reads
the bytes at `path` (exactly one filesystem read: the read counter goes up
by one and nothing else in the world changes) and returns their MD5 hex
digest; the returned document carries the digest in its cache, and every
subsequent call returns the identical cached string with the world — read
counter included — completely untouched.  A call that fails because the
file is unreadable returns the document unchanged (nothing is cached, its
cache is still empty), so a later call re-attempts the read. -/
theorem checksum_cached_once :
    (∀ (d : ConsumeDocument) (w : World) (p : String) (b : List Nat),
       d.checksumCache = none → d.path = some p → fsLookup w.fs p = some b →
       ∃ d1, d.checksum w = (.ok (md5hex b), d1, { w with readCount := w.readCount + 1 }) ∧
         d1.checksumCache = some (md5hex b) ∧
         ∀ w2, d1.checksum w2 = (.ok (md5hex b), d1, w2)) ∧
    (∀ (d : ConsumeDocument) (w : World) (p : String),
       d.checksumCache = none → d.path = some p → fsLookup w.fs p = none →
       d.checksum w = (.error .fileNotFound, d, w)) := by
  constructor
  · intro d w p b hc hp hb
    refine ⟨{ d with checksumCache := some (md5hex b) }, ?_, rfl, ?_⟩
    · simp [ConsumeDocument.checksum, hc, hp, readBytes, hb]
    · intro w2
      simp [ConsumeDocument.checksum]
  · intro d w p hc hp hb
    simp [ConsumeDocument.checksum, hc, hp, readBytes, hb]

/-- Witness for C4: a concrete first `checksum` call returns the digest of
the file's bytes. -/
theorem checksum_cached_once_witness :
    (ConsumeDocument.checksum ⟨DocumentSource.ApiUpload, "/a", none, some "m", none⟩
        ⟨[("/a", [1, 2])], 0, 0, none⟩).1 = .ok (md5hex [1, 2]) := by
  obtain ⟨d1, h1, _, _⟩ := checksum_cached_once.1
    ⟨DocumentSource.ApiUpload, "/a", none, some "m", none⟩
    ⟨[("/a", [1, 2])], 0, 0, none⟩ ("/a") [1, 2] rfl rfl rfl
  rw [h1]

/-- The four keys of a serialized `ConsumeDocument` record, all of which
`from_dict` requires. -/
def consumeKeys : List String := ["source", "original_file", "working_file", "mime_type"]

/-- Whether a record value is a string (the shape `Path(v)` accepts). -/
def isStrVal : Value → Bool
  | .str _ => true
  | _ => false

/-- Whether a record value is a valid `DocumentSource` integer. -/
def isSourceVal : Value → Bool
  | .int n => n == 1 || n == 2 || n == 3
  | _ => false

theorem asPathStr_ok_isStr (v : Value) (s : String) (h : asPathStr v = .ok s) :
    isStrVal v = true := by
  cases v <;> simp_all [asPathStr, isStrVal]

theorem toDocumentSource_ok_isSource (v : Value) (s : DocumentSource)
    (h : toDocumentSource v = .ok s) : isSourceVal v = true := by
  unfold toDocumentSource at h
  split at h
  all_goals simp_all [isSourceVal]

/-- C7: `ConsumeDocument.from_dict` fails — surfacing an exception (the
spec's MalformedRecordError) and constructing no object, with the world
untouched — whenever a required field is absent from the record (any of the
four keys missing raises `KeyError`; in particular a record missing
`original_file`) or has the wrong shape (`original_file` not a string, or
`source` not one of the enum's integers). -/
theorem consume_from_dict_malformed_record (scratch : String) (data : Record) (w : World)
    (hbad : (∃ k, k ∈ consumeKeys ∧ lookupKey data k = .error .keyError) ∨
            (∃ v, lookupKey data ("original_file") = .ok v ∧ isStrVal v = false) ∨
            (∃ v, lookupKey data ("source") = .ok v ∧ isSourceVal v = false)) :
    ∃ e, ConsumeDocument.from_dict scratch data w = (.error e, w) := by
  rcases hres : parseConsumeRecord data with e | ⟨src, orig, work, mime⟩
  · exact ⟨e, by simp [ConsumeDocument.from_dict, hres]⟩
  · exfalso
    obtain ⟨⟨vs, hvs1, hvs2⟩, ⟨vo, hvo1, hvo2⟩, ⟨vw, hvw1, _⟩, ⟨vm, hvm1, _⟩⟩ :=
      parseConsumeRecord_ok_inv _ _ _ _ _ hres
    rcases hbad with ⟨k, hk, hmiss⟩ | ⟨v, hv1, hv2⟩ | ⟨v, hv1, hv2⟩
    · fin_cases hk <;> simp_all
    · rw [hv1] at hvo1
      injection hvo1 with h2
      rw [h2] at hv2
      rw [asPathStr_ok_isStr vo orig hvo2] at hv2
      cases hv2
    · rw [hv1] at hvs1
      injection hvs1 with h2
      rw [h2] at hv2
      rw [toDocumentSource_ok_isSource vs src hvs2] at hv2
      cases hv2

/-- Witness for C7: the empty record (in particular `original_file` is
missing) is rejected, constructing nothing. -/
theorem consume_from_dict_malformed_record_witness :
    ∃ e, ConsumeDocument.from_dict ("/s") [] ⟨[], 0, 0, none⟩ =
      (.error e, ⟨[], 0, 0, none⟩) :=
  consume_from_dict_malformed_record ("/s") [] ⟨[], 0, 0, none⟩
    (Or.inl ⟨"source", by decide, rfl⟩)

/-- C8 counterexample: construction with a path that does not exist (the
filesystem is empty) and a supplied content type succeeds outright —
`Path.resolve()` (default `strict=False`) performs no existence check, so
construction never fails with a resolution error for a missing file. -/
theorem resolve_no_existence_check_counterexample :
    fsLookup ([] : FileSys) ("/relative.txt") = none ∧
    mkConsumeDocument ("/s") DocumentSource.ApiUpload ("relative.txt") none
        (some "application/pdf") ⟨[], 0, 0, none⟩ =
      (.ok ⟨DocumentSource.ApiUpload, "/relative.txt", none, some "application/pdf", none⟩,
       ⟨[], 0, 0, none⟩) :=
  ⟨rfl, rfl⟩

/-- C8 (amended): construction step 1 resolves `originalFile` to an
absolute, canonical (idempotently resolved) path and never fails — there
is no existence check and no PathResolutionError; a nonexistent original
file surfaces, when the content type must be probed, as a
file-not-found error in step 2 (detection), before any working copy is
created (the world is returned unchanged). -/
theorem resolve_total_detection_fails (scratch : String) (src : DocumentSource)
    (orig : String) (wf : Option String) (w : World)
    (hmiss : fsLookup w.fs (resolvePath orig) = none) :
    isAbsolute (resolvePath orig) = true ∧
    resolvePath (resolvePath orig) = resolvePath orig ∧
    mkConsumeDocument scratch src orig wf none w = (.error .fileNotFound, w) := by
  refine ⟨isAbsolute_resolvePath orig, resolvePath_idem orig, ?_⟩
  simp [mkConsumeDocument, postInit, magicFromFile, hmiss]

/-- Witness for the amended C8 theorem at a concrete missing file. -/
theorem resolve_total_detection_fails_witness :
    isAbsolute (resolvePath ("relative.txt")) = true ∧
    resolvePath (resolvePath ("relative.txt")) = resolvePath ("relative.txt") ∧
    mkConsumeDocument ("/s") DocumentSource.ConsumeFolder ("relative.txt") none none
        ⟨[], 0, 0, none⟩ = (.error .fileNotFound, ⟨[], 0, 0, none⟩) :=
  resolve_total_detection_fails ("/s") DocumentSource.ConsumeFolder ("relative.txt") none
    ⟨[], 0, 0, none⟩ rfl

/-- C9 counterexample: a copy that fails midway (write budget 2 for a
3-byte file) aborts construction with the OS error, yet leaves the
truncated working file `[1, 2]` observable on disk at the working path —
no atomic finalize, no cleanup before the error surfaces. -/
theorem copy_failure_leaves_partial_counterexample :
    mkConsumeDocument ("/s") DocumentSource.ConsumeFolder ("/a.txt") none (some "m")
        ⟨[("/a.txt", [1, 2, 3])], 0, 0, some 2⟩ =
      (.error .osError,
       ⟨[("/s/tmp/a.txt", [1, 2]), ("/a.txt", [1, 2, 3])], 1, 1, some 0⟩) ∧
    fsLookup [("/s/tmp/a.txt", [1, 2]), ("/a.txt", [1, 2, 3])] ("/s/tmp/a.txt") =
      some [1, 2] ∧
    ([1, 2] : List Nat) ≠ [1, 2, 3] :=
  ⟨rfl, rfl, by decide⟩

/-- C9 (amended): when the copy cannot be completed, construction fails
with the underlying OS error and produces no object, but the code writes
with a plain `write_bytes` — no temp name, no atomic rename, no deletion on
failure — so the prefix that fit remains on disk at the working path as an
observable partial (strictly shorter) file. -/
theorem copy_failure_partial_artifact (scratch : String) (orig : String) (m : String)
    (w : World) (b : List Nat) (k : Nat)
    (hb : fsLookup w.fs (resolvePath orig) = some b)
    (hbud : w.writeBudget = some k)
    (hk : k < b.length) :
    mkConsumeDocument scratch DocumentSource.ConsumeFolder orig none (some m) w =
      (.error .osError,
        ⟨fsInsert w.fs (workingName scratch w.tmpCounter orig) (b.take k),
         w.tmpCounter + 1, w.readCount + 1, some 0⟩) ∧
    fsLookup (fsInsert w.fs (workingName scratch w.tmpCounter orig) (b.take k))
        (workingName scratch w.tmpCounter orig) = some (b.take k) ∧
    b.take k ≠ b := by
  have hnle : ¬(b.length ≤ k) := by omega
  refine ⟨?_, fsLookup_fsInsert_self _ _ _, ?_⟩
  · simp [mkConsumeDocument, postInit, readBytes, writeBytes, hb, hbud, hnle, workingName]
  · intro hcontra
    have := congrArg List.length hcontra
    simp [List.length_take] at this
    omega

/-- Witness for the amended C9 theorem at the concrete failing copy. -/
theorem copy_failure_partial_artifact_witness :
    mkConsumeDocument ("/s") DocumentSource.ConsumeFolder ("/a.txt") none (some "m")
        ⟨[("/a.txt", [1, 2, 3])], 0, 0, some 2⟩ =
      (.error .osError,
        ⟨fsInsert [("/a.txt", [1, 2, 3])] (workingName "/s" 0 "/a.txt") [1, 2],
         1, 1, some 0⟩) ∧
    fsLookup (fsInsert [("/a.txt", [1, 2, 3])] (workingName "/s" 0 "/a.txt") [1, 2])
        (workingName "/s" 0 "/a.txt") = some [1, 2] ∧
    ([1, 2, 3] : List Nat).take 2 ≠ [1, 2, 3] :=
  copy_failure_partial_artifact ("/s") ("/a.txt") ("m")
    ⟨[("/a.txt", [1, 2, 3])], 0, 0, some 2⟩ [1, 2, 3] 2 rfl rfl (by decide)
